import Mathlib

/-!
# Verification of the volunteer-to-event matching service

A shallow embedding of the matching router (`matching.js` routes: `/volunteers`,
`/events`, `/volunteer/:id`, `/assign`, `/health`), the demo seed script
(`seedDemo`), and the event-management form validation (`event_manage.tsx`,
`validate`), together with theorems settling the specification claims.

Conventions of the embedding:
* Database rows are Lean structures; tables are lists of rows.
* Each Prisma call made by a handler may fail (the database may be down); the
  handlers take a `faults` list whose `i`-th entry says whether the handler's
  `i`-th database call (in program order) throws.  A thrown call lands in the
  surrounding `catch`, which answers with status 500.
* The external scoring function `score` (imported from `services/matching.js`,
  outside the reviewed sources) and the timestamp rendering done by
  `Date.prototype.toISOString` are abstract parameters; every theorem holds for
  all instantiations.
* JavaScript numbers appearing as scores are modelled by `Rat` (an ordered
  field suffices for the comparator `(a, b) => b.score - a.score`); the `topN`
  query parameter is modelled by `JSNum`, which keeps track of `NaN`.
-/

set_option linter.unusedVariables false

namespace VolunteerMatch

/-! ## Fragments of JavaScript semantics used by the routes -/

/-- A JavaScript number that may be `NaN` (integral values suffice for the
`topN` parameter; no fractional `topN` occurs in the routes). -/
inductive JSNum where
  | nan : JSNum
  | num : Int → JSNum
deriving DecidableEq, Repr

/-- The ASCII part of the ECMAScript whitespace class used by string
trimming (the Unicode space separators do not occur in the data handled
here). -/
def jsWhitespace (c : Char) : Bool :=
  c == ' ' || c == '\t' || c == '\n' || c == '\r' || c == '\x0b' || c == '\x0c'

/-- ECMAScript `String.prototype.trim` over the character list of a string. -/
def jsTrimList (cs : List Char) : List Char :=
  ((cs.dropWhile jsWhitespace).reverse.dropWhile jsWhitespace).reverse

/-- ECMAScript `String.prototype.trim`. -/
def jsTrim (s : String) : String :=
  ⟨jsTrimList s.data⟩

/-- Decimal value of a digit list. -/
def digitsVal (cs : List Char) : Nat :=
  cs.foldl (fun n c => n * 10 + (c.toNat - 48)) 0

/-- ECMAScript `Number(string)` on the string shapes relevant to the `topN`
query parameter: after trimming whitespace the empty string converts to `0`, a
nonempty digit string converts to its decimal value, and any other string
(no sign/fraction/exponent forms are exercised by the API) converts to `NaN`. -/
def jsNumber (s : String) : JSNum :=
  let t := jsTrimList s.data
  if t.isEmpty then .num 0
  else if t.all Char.isDigit then .num (Int.ofNat (digitsVal t))
  else .nan

/-- The effective end index of `Array.prototype.slice(0, end)`:
`NaN` yields `0`, a negative index counts from the end of the array (clamped
below at `0`), and any other index is clamped above by the length. -/
def jsSliceEnd (len : Nat) : JSNum → Nat
  | .nan => 0
  | .num n => if n < 0 then (Int.ofNat len + n).toNat else min n.toNat len

/-- `Array.prototype.slice(0, n)`. -/
def jsSlice (n : JSNum) (xs : List α) : List α :=
  xs.take (jsSliceEnd xs.length n)

/-- A JavaScript value as it can appear in a request-body field. -/
inductive JsVal where
  | str : String → JsVal
  | num : JSNum → JsVal
  | bool : Bool → JsVal
  | null : JsVal
  | undefined : JsVal
deriving DecidableEq, Repr

/-- JavaScript truthiness: `""`, `0`, `NaN`, `false`, `null` and `undefined`
are falsy, everything else in `JsVal` is truthy. -/
def JsVal.truthy : JsVal → Bool
  | .str s => !s.isEmpty
  | .num .nan => false
  | .num (.num n) => n != 0
  | .bool b => b
  | .null => false
  | .undefined => false

/-! ## The data model (rows as used by the reviewed routes and seed script) -/

structure UserCredentials where
  userId : String
  password : String
deriving DecidableEq, Repr

/-- A `userProfile` row.  `createdAt` is the database-generated creation
timestamp used by the `/volunteers` ordering; `eventDate`-like timestamps are
epoch milliseconds. -/
structure UserProfile where
  userId : String
  fullName : String
  address1 : String
  city : String
  state : String
  zipCode : String
  skills : List String
  preferences : Option String
  availability : List String
  createdAt : Int
deriving DecidableEq, Repr

structure EventDetails where
  id : String
  eventName : String
  description : String
  location : String
  requiredSkills : List String
  urgency : String
  eventDate : Int
deriving DecidableEq, Repr

structure Assignment where
  id : String
  volunteerId : String
  eventId : String
  createdAtMs : Option Int
deriving DecidableEq, Repr

structure Notice where
  id : String
  volunteerId : String
  title : String
  body : String
  type : String
  createdAtMs : Option Int
deriving DecidableEq, Repr

/-- The persistent store: one list of rows per table touched by the reviewed
code. -/
structure Store where
  creds : List UserCredentials
  profiles : List UserProfile
  events : List EventDetails
  assignments : List Assignment
  notices : List Notice
deriving DecidableEq, Repr

/-- The payload `bus.emit` publishes for a new notice. -/
structure NoticePayload where
  id : String
  volunteerId : String
  title : String
  body : String
  type : String
  createdAtMs : Int
deriving DecidableEq, Repr

/-- One `bus.emit(channel, payload)` call. -/
structure BusMessage where
  channel : String
  payload : NoticePayload
deriving DecidableEq, Repr

/-- Store plus the log of bus publications. -/
structure World where
  store : Store
  bus : List BusMessage
deriving DecidableEq, Repr

/-! ## DTO shaping -/

structure VolunteerDTO where
  id : String
  name : String
  location : String
  skills : List String
deriving DecidableEq, Repr

structure EventDTO where
  id : String
  name : String
  location : String
  requiredSkills : List String
  date : String
  urgency : String
deriving DecidableEq, Repr

/-- `toVolunteerDTO`: `{id: p.userId, name: p.fullName, location: p.city,
skills: p.skills}` (the `Array.isArray` guard always takes the array branch
here since `skills` is a list in the model). -/
def toVolunteerDTO (p : UserProfile) : VolunteerDTO :=
  { id := p.userId, name := p.fullName, location := p.city, skills := p.skills }

/-- `toEventDTO`; `date` is `new Date(e.eventDate).toISOString().slice(0, 10)`
with `toISOString` passed in as the abstract timestamp renderer (the slice is
taken on the character list). -/
def toEventDTO (toISOString : Int → String) (e : EventDetails) : EventDTO :=
  { id := e.id, name := e.eventName, location := e.location,
    requiredSkills := e.requiredSkills,
    date := ⟨(toISOString e.eventDate).data.take 10⟩,
    urgency := e.urgency }

/-! ## The matching router -/

/-- An endpoint's JSON answer: `ok` carries a 200 body, `err` a status code
and the `error` string of the JSON error body. -/
inductive ApiResult (α : Type) where
  | ok : α → ApiResult α
  | err : Nat → String → ApiResult α
deriving DecidableEq, Repr

/-- Whether the `i`-th database call of a handler throws. -/
def faultAt (faults : List Bool) (i : Nat) : Bool :=
  faults.getD i false

/-- `prisma.userProfile.findUnique({ where: { userId } })`. -/
def findProfile (userId : String) (s : Store) : Option UserProfile :=
  s.profiles.find? (fun p => p.userId == userId)

/-- `prisma.eventDetails.findUnique({ where: { id } })`. -/
def findEvent (id : String) (s : Store) : Option EventDetails :=
  s.events.find? (fun e => e.id == id)

/-- `GET /volunteers`: all profiles ordered by `createdAt` descending, shaped
by `toVolunteerDTO`; 500 on store failure. -/
def listVolunteers (faults : List Bool) (w : World) :
    ApiResult (List VolunteerDTO) × World :=
  if faultAt faults 0 then (.err 500 "list_volunteers_failed", w)
  else
    (.ok ((w.store.profiles.mergeSort
        (fun a b => decide (b.createdAt ≤ a.createdAt))).map toVolunteerDTO), w)

/-- `GET /events`: all events ordered by `eventDate` ascending, shaped by
`toEventDTO`; 500 on store failure. -/
def listEvents (toISOString : Int → String) (faults : List Bool) (w : World) :
    ApiResult (List EventDTO) × World :=
  if faultAt faults 0 then (.err 500 "list_events_failed", w)
  else
    (.ok ((w.store.events.mergeSort
        (fun a b => decide (a.eventDate ≤ b.eventDate))).map
        (toEventDTO toISOString)), w)

/-- One `{event, score}` entry of the ranking answer. -/
structure Ranked where
  event : EventDTO
  score : Rat
deriving DecidableEq, Repr

/-- `Number(req.query.topN ?? 9999)`. -/
def parseTopN (topNq : Option String) : JSNum :=
  match topNq with
  | none => .num 9999
  | some s => jsNumber s

/-- `GET /volunteer/:id`: load the volunteer (404 when absent), score every
event against it, keep strictly positive scores, sort descending by score
(stably, as `Array.prototype.sort`), and `slice(0, topN)`; 500 when either
database call throws. -/
def rankForVolunteer (toISOString : Int → String)
    (score : VolunteerDTO → EventDTO → Rat) (faults : List Bool)
    (id : String) (topNq : Option String) (w : World) :
    ApiResult (List Ranked) × World :=
  let topN := parseTopN topNq
  if faultAt faults 0 then (.err 500 "rank_failed", w)
  else
    match findProfile id w.store with
    | none => (.err 404 "volunteer not found", w)
    | some v =>
      if faultAt faults 1 then (.err 500 "rank_failed", w)
      else
        let vDTO := toVolunteerDTO v
        let ranked :=
          jsSlice topN
            (((w.store.events.map (fun e =>
                let eDTO := toEventDTO toISOString e
                ({ event := eDTO, score := score vDTO eDTO } : Ranked))).filter
              (fun x => decide (0 < x.score))).mergeSort
              (fun a b => decide (b.score ≤ a.score)))
        (.ok ranked, w)

/-- The `{volunteerId, eventId}` request body of `POST /assign`; a field the
client did not send is `undefined`. -/
structure AssignBody where
  volunteerId : JsVal
  eventId : JsVal
deriving DecidableEq, Repr

/-- Values generated by the database for the two `create` calls of `assign`:
fresh row ids and `createdAtMs` defaults. -/
structure DbGen where
  assignmentId : String
  assignmentCreatedAtMs : Option Int
  noticeId : String
  noticeCreatedAtMs : Option Int
deriving DecidableEq, Repr

/-- The `assignment` object of a successful `assign` answer;
`createdAtMs` is `Number(assignment.createdAtMs ?? 0n)`. -/
structure AssignmentOut where
  id : String
  volunteerId : String
  eventId : String
  createdAtMs : Int
deriving DecidableEq, Repr

/-- The `{ok: true, assignment}` body of a successful `assign` answer. -/
structure AssignOk where
  ok : Bool
  assignment : AssignmentOut
deriving DecidableEq, Repr

/-- `POST /assign`: 400 when either body field is falsy; otherwise load the
volunteer and the event concurrently (404 when either is absent, 500 when a
call throws or a non-string id reaches Prisma's argument validation), insert
one `Assignment` row and one `Notice` row, publish the notice on the channel
`notice:volunteerId`, and answer `{ok: true, assignment}`.  Database calls in
program order: 0 = find volunteer, 1 = find event, 2 = create assignment,
3 = create notice. -/
def assign (toISOString : Int → String) (faults : List Bool)
    (body : Option AssignBody) (g : DbGen) (w : World) :
    ApiResult AssignOk × World :=
  let b := body.getD { volunteerId := .undefined, eventId := .undefined }
  if !b.volunteerId.truthy || !b.eventId.truthy then
    (.err 400 "volunteerId and eventId required", w)
  else if faultAt faults 0 || faultAt faults 1 then (.err 500 "assign_failed", w)
  else
    match b.volunteerId, b.eventId with
    | .str vs, .str es =>
      match findProfile vs w.store, findEvent es w.store with
      | some _, some e =>
        if faultAt faults 2 then (.err 500 "assign_failed", w)
        else
          let a : Assignment :=
            { id := g.assignmentId, volunteerId := vs, eventId := es,
              createdAtMs := g.assignmentCreatedAtMs }
          let w1 : World :=
            { w with store := { w.store with assignments := w.store.assignments ++ [a] } }
          if faultAt faults 3 then (.err 500 "assign_failed", w1)
          else
            let title := "Assigned: " ++ e.eventName
            let nbody := e.location ++ " • " ++ toISOString e.eventDate
            let n : Notice :=
              { id := g.noticeId, volunteerId := vs, title := title, body := nbody,
                type := "success", createdAtMs := g.noticeCreatedAtMs }
            let w2 : World :=
              { w1 with store := { w1.store with notices := w1.store.notices ++ [n] } }
            let payload : NoticePayload :=
              { id := n.id, volunteerId := n.volunteerId, title := n.title,
                body := n.body, type := n.type,
                createdAtMs := n.createdAtMs.getD 0 }
            let w3 : World := { w2 with bus := w2.bus ++ [⟨"notice:" ++ vs, payload⟩] }
            (.ok { ok := true,
                   assignment := { id := a.id, volunteerId := vs, eventId := es,
                                   createdAtMs := a.createdAtMs.getD 0 } }, w3)
      | _, _ => (.err 404 "not found", w)
    | _, _ => (.err 500 "assign_failed", w)

/-- `GET /health`: `{ok: true}`. -/
def health (w : World) : ApiResult Bool × World :=
  (.ok true, w)

/-! ## The seed script -/

/-- Modelled from the spec: one demo volunteer of the demo-data module
(`demo_data/volunteer_events.data.js`, not among the reviewed sources), with
exactly the fields `seedDemo` reads: `id`, `name`, `location`, `skills`. -/
structure DemoVol where
  id : String
  name : String
  location : String
  skills : List String
deriving DecidableEq, Repr

/-- Modelled from the spec: one demo event of the demo-data module, with
exactly the fields `seedDemo` reads: `id`, `name`, `location`,
`requiredSkills`, `urgency`, `date` (a date string parsed by `new Date`). -/
structure DemoEvent where
  id : String
  name : String
  location : String
  requiredSkills : List String
  urgency : String
  date : String
deriving DecidableEq, Repr

/-- Whether some row of the table carries the unique key `k`. -/
def keyExists (key : ρ → String) (rows : List ρ) (k : String) : Bool :=
  rows.any (fun r => key r == k)

/-- Prisma `upsert` whose `update` clause is empty (`update: {}`): the matched
row is left unchanged, a missing row is created as `c`. -/
def upsertKeep (key : ρ → String) (k : String) (c : ρ) (rows : List ρ) : List ρ :=
  if keyExists key rows k then rows else rows ++ [c]

/-- Prisma `upsert` whose `update` clause rewrites the matched row by `u`;
a missing row is created as `c`. -/
def upsertWith (key : ρ → String) (k : String) (u : ρ → ρ) (c : ρ)
    (rows : List ρ) : List ρ :=
  if keyExists key rows k then rows.map (fun r => if key r == k then u r else r)
  else rows ++ [c]

/-- The `update` clause of the profile upsert of `seedDemo`: every listed
profile field is rewritten from the demo record; `userId` and `createdAt` are
not listed and stay. -/
def profileUpdate (v : DemoVol) (r : UserProfile) : UserProfile :=
  { r with fullName := v.name, address1 := v.location, city := v.location,
           state := "TX", zipCode := "00000", skills := v.skills,
           preferences := none, availability := [] }

/-- The `create` clause of the profile upsert of `seedDemo`; `now` is the
database-generated `createdAt`. -/
def profileCreate (now : Int) (v : DemoVol) : UserProfile :=
  { userId := v.id, fullName := v.name, address1 := v.location,
    city := v.location, state := "TX", zipCode := "00000", skills := v.skills,
    preferences := none, availability := [], createdAt := now }

/-- One iteration of the per-volunteer transaction of `seedDemo`: upsert the
credentials (empty `update`), then upsert the profile. -/
def seedVolunteer (now : Int) (v : DemoVol) (s : Store) : Store :=
  let s1 := { s with
    creds := upsertKeep (fun c => c.userId) v.id ⟨v.id, "demo"⟩ s.creds }
  { s1 with
    profiles :=
      upsertWith (fun p => p.userId) v.id (profileUpdate v)
        (profileCreate now v) s1.profiles }

/-- The `update` clause of the event upsert of `seedDemo` (every field but
`id` is rewritten; `description` is seeded from the demo event's name). -/
def eventUpdate (parseDate : String → Int) (e : DemoEvent) (r : EventDetails) :
    EventDetails :=
  { r with eventName := e.name, description := e.name, location := e.location,
           requiredSkills := e.requiredSkills, urgency := e.urgency,
           eventDate := parseDate e.date }

/-- The `create` clause of the event upsert of `seedDemo`. -/
def eventCreate (parseDate : String → Int) (e : DemoEvent) : EventDetails :=
  { id := e.id, eventName := e.name, description := e.name,
    location := e.location, requiredSkills := e.requiredSkills,
    urgency := e.urgency, eventDate := parseDate e.date }

/-- One iteration of the event loop of `seedDemo`. -/
def seedEvent (parseDate : String → Int) (e : DemoEvent) (s : Store) : Store :=
  { s with
    events :=
      upsertWith (fun r => r.id) e.id (eventUpdate parseDate e)
        (eventCreate parseDate e) s.events }

/-- The volunteer loop of `seedDemo`. -/
def seedVols (now : Int) (demoVols : List DemoVol) (s : Store) : Store :=
  demoVols.foldl (fun s v => seedVolunteer now v s) s

/-- The event loop of `seedDemo`. -/
def seedEvents (parseDate : String → Int) (demoEvents : List DemoEvent)
    (s : Store) : Store :=
  demoEvents.foldl (fun s e => seedEvent parseDate e s) s

/-- `seedDemo`: upsert every demo volunteer (credentials + profile), then
upsert every demo event.  `parseDate` abstracts `new Date(string)` and `now`
the database clock for created rows. -/
def seedDemo (parseDate : String → Int) (now : Int) (demoVols : List DemoVol)
    (demoEvents : List DemoEvent) (s : Store) : Store :=
  seedEvents parseDate demoEvents (seedVols now demoVols s)

/-! ## The event-management form (`event_manage.tsx`) -/

/-- The form state (the `Form` type of `event_manage.tsx`); `urgency` is one
of the `URGENCY_OPTIONS` strings in the UI but any string at this type. -/
structure Form where
  name : String
  description : String
  location : String
  requiredSkills : List String
  urgency : String
  eventDate : String
deriving DecidableEq, Repr

/-- The client-side `validate` of `event_manage.tsx`: the first failing check
produces its message, `none` means the form is accepted (and `handleSave`
submits it).  `!form.urgency` and `!form.eventDate` are string falsiness,
that is emptiness without trimming. -/
def validate (f : Form) : Option String :=
  if (jsTrim f.name).data.isEmpty then some "Event Name is required."
  else if 100 < (jsTrim f.name).data.length then
    some "Event Name must be ≤ 100 characters."
  else if (jsTrim f.description).data.isEmpty then
    some "Event Description is required."
  else if (jsTrim f.location).data.isEmpty then some "Location is required."
  else if f.requiredSkills.isEmpty then some "Select at least one Required Skill."
  else if f.urgency.data.isEmpty then some "Urgency is required."
  else if f.eventDate.data.isEmpty then some "Event Date is required."
  else none

/-- Rendered from the claim's words, not from the source: a "valid" event
date is a `YYYY-MM-DD` string denoting a calendar date (month 1–12, day
1–31).  The source's `validate` checks only that the field is nonempty. -/
def specValidDateString (s : String) : Bool :=
  match s.data with
  | [y1, y2, y3, y4, h1, m1, m2, h2, d1, d2] =>
    y1.isDigit && y2.isDigit && y3.isDigit && y4.isDigit &&
    h1 == '-' && h2 == '-' && m1.isDigit && m2.isDigit &&
    d1.isDigit && d2.isDigit &&
    (let m := (m1.toNat - 48) * 10 + (m2.toNat - 48)
     let d := (d1.toNat - 48) * 10 + (d2.toNat - 48)
     decide (1 ≤ m) && decide (m ≤ 12) && decide (1 ≤ d) && decide (d ≤ 31))
  | _ => false

/-- Rendered from the claim's words, not from the source: the claim's
acceptance condition — every required field nonempty after trimming, the
trimmed name within 100 characters, at least one skill, and a valid date. -/
def specAccepts (f : Form) : Bool :=
  !(jsTrim f.name).data.isEmpty && decide ((jsTrim f.name).data.length ≤ 100) &&
  !(jsTrim f.description).data.isEmpty && !(jsTrim f.location).data.isEmpty &&
  !(f.requiredSkills.isEmpty) && !(jsTrim f.urgency).data.isEmpty &&
  !(jsTrim f.eventDate).data.isEmpty && specValidDateString f.eventDate

/-! ## Concrete fixtures used by witnesses and counterexamples -/

/-- A stored volunteer profile. -/
def cVol : UserProfile :=
  { userId := "v1", fullName := "Vol One", address1 := "12 Main St",
    city := "Houston", state := "TX", zipCode := "77001",
    skills := ["Teamwork"], preferences := none, availability := [],
    createdAt := 5 }

/-- A stored event with the given id and date. -/
def mkEvt (i : String) (d : Int) : EventDetails :=
  { id := i, eventName := "Event " ++ i, description := "d",
    location := "loc " ++ i, requiredSkills := ["Teamwork"], urgency := "Low",
    eventDate := d }

/-- A store holding one volunteer and three events. -/
def cW : World :=
  { store := { creds := [], profiles := [cVol],
               events := [mkEvt "e1" 1, mkEvt "e2" 2, mkEvt "e3" 3],
               assignments := [], notices := [] },
    bus := [] }

/-- A concrete timestamp renderer. -/
def cIso : Int → String := fun _ => "1970-01-01T00:00:00.000Z"

/-- A concrete scoring function giving the three events of `cW` the scores
5, 9 and 1. -/
def cScore : VolunteerDTO → EventDTO → Rat := fun _ e =>
  if e.id = "e1" then 5 else if e.id = "e2" then 9 else 1

/-- The `{event, score}` pairs of the ranking pipeline before sorting and
truncation: every stored event scored against the volunteer, keeping the
strictly positive scores. -/
def posPairs (iso : Int → String) (score : VolunteerDTO → EventDTO → Rat)
    (v : UserProfile) (evs : List EventDetails) : List Ranked :=
  (evs.map (fun e =>
    let eDTO := toEventDTO iso e
    ({ event := eDTO, score := score (toVolunteerDTO v) eDTO } : Ranked))).filter
    (fun x => decide (0 < x.score))

/-- The ranked list of a 200 answer (empty for an error answer). -/
def okList : ApiResult (List Ranked) → List Ranked
  | .ok l => l
  | .err _ _ => []

/-- The `i`-th of 10000 pairwise distinct stored events (they differ in the
length of their `location`). -/
def bigEvent (i : Nat) : EventDetails :=
  { id := "E", eventName := "N", description := "D",
    location := ⟨List.replicate i 'a'⟩, requiredSkills := [], urgency := "Low",
    eventDate := 0 }

/-- A store holding one volunteer and 10000 distinct events. -/
def bigWorld : World :=
  { store := { creds := [], profiles := [cVol],
               events := (List.range 10000).map bigEvent,
               assignments := [], notices := [] },
    bus := [] }

/-- A scoring function giving every event the score 1. -/
def oneScore : VolunteerDTO → EventDTO → Rat := fun _ _ => 1

/-- A store state in which the demo volunteer `v` is fully seeded: its
credentials row exists, its profile row exists, and every profile row under
its id already carries the demo values (so the profile upsert's `update`
clause fixes it). -/
def volSeeded (v : DemoVol) (s : Store) : Prop :=
  keyExists (fun c : UserCredentials => c.userId) s.creds v.id = true ∧
  keyExists (fun p : UserProfile => p.userId) s.profiles v.id = true ∧
  ∀ r ∈ s.profiles, r.userId = v.id → profileUpdate v r = r

/-- A store state in which the demo event `e` is fully seeded. -/
def evtSeeded (parseDate : String → Int) (e : DemoEvent) (s : Store) : Prop :=
  keyExists (fun r : EventDetails => r.id) s.events e.id = true ∧
  ∀ r ∈ s.events, r.id = e.id → eventUpdate parseDate e r = r

/-- Two demo volunteers with distinct ids. -/
def dVol1 : DemoVol :=
  { id := "dv1", name := "Demo One", location := "Austin",
    skills := ["Teamwork"] }

def dVol2 : DemoVol :=
  { id := "dv2", name := "Demo Two", location := "Dallas",
    skills := ["Lifting"] }

/-- A demo event. -/
def dEvt1 : DemoEvent :=
  { id := "de1", name := "Park Cleanup", location := "Austin",
    requiredSkills := ["Teamwork"], urgency := "Low", date := "2025-01-01" }

/-- The empty store. -/
def emptyStore : Store := ⟨[], [], [], [], []⟩

/-! ## C8: form validation -/

/-- A form whose fields all pass the source's checks while its `eventDate`,
`"2025-13-40"`, is not a valid calendar date. -/
def c8Form : Form :=
  { name := "Food Drive", description := "Drive", location := "Main St",
    requiredSkills := ["Teamwork"], urgency := "Low",
    eventDate := "2025-13-40" }

/-- C8, counterexample: the claim says the form is rejected when the event
date is not valid, but `validate` accepts `c8Form` although its date
`"2025-13-40"` is no valid date (the claim's acceptance condition
`specAccepts` is false on it).  `validate` checks only that the date field is
nonempty. -/
theorem C8_counterexample :
    validate c8Form = none ∧ specAccepts c8Form = false := by
  exact ⟨by decide, by decide⟩

/-- C8, amended: `validate` accepts exactly when name, description and
location are nonempty after trimming, the trimmed name has at most 100
characters, at least one skill is selected, and urgency and event date are
nonempty (both untrimmed, and with no check that the date is a valid
calendar date). -/
theorem C8_validate_none_iff (f : Form) :
    validate f = none ↔
      ((jsTrim f.name).data ≠ [] ∧ (jsTrim f.name).data.length ≤ 100 ∧
       (jsTrim f.description).data ≠ [] ∧ (jsTrim f.location).data ≠ [] ∧
       f.requiredSkills ≠ [] ∧ f.urgency ≠ "" ∧ f.eventDate ≠ "") := by
  have hstr : ∀ s : String, s.data = [] ↔ s = "" := by
    intro s
    cases s with
    | mk d => simp [String.ext_iff]
  unfold validate
  split_ifs with h1 h2 h3 h4 h5 h6 h7 <;>
    simp_all [List.isEmpty_iff, Nat.not_lt, hstr]

/-! ## C9: non-numeric topN -/

/-- C9: when the `topN` query value converts to `NaN`, a found volunteer gets
the empty ranking with status 200: `slice(0, NaN)` keeps nothing. -/
theorem C9_rank_nan_topN (iso : Int → String)
    (score : VolunteerDTO → EventDTO → Rat) (faults : List Bool)
    (id ts : String) (v : UserProfile) (w : World)
    (h0 : faultAt faults 0 = false) (h1 : faultAt faults 1 = false)
    (hv : findProfile id w.store = some v) (hn : jsNumber ts = .nan) :
    rankForVolunteer iso score faults id (some ts) w = (.ok [], w) := by
  simp [rankForVolunteer, parseTopN, hn, h0, h1, hv, jsSlice, jsSliceEnd]

/-- C9, witness at `topN = "abc"` against the store `cW`. -/
theorem C9_witness :
    (faultAt [] 0 = false ∧ faultAt [] 1 = false ∧
     findProfile "v1" cW.store = some cVol ∧ jsNumber "abc" = .nan) ∧
    rankForVolunteer cIso cScore [] "v1" (some "abc") cW = (.ok [], cW) :=
  ⟨⟨rfl, rfl, by decide, by decide⟩,
   C9_rank_nan_topN cIso cScore [] "v1" "abc" cVol cW rfl rfl (by decide)
     (by decide)⟩

/-! ## C10: falsy body fields -/

/-- C10: `assign` answers 400 and leaves the world untouched whenever either
body field is falsy — not only a missing (`undefined`) field, but any falsy
present value such as `""` or `0`; no lookup result can influence this since
the world is returned unchanged for every store. -/
theorem C10_assign_falsy_400 (iso : Int → String) (faults : List Bool)
    (vid eid : JsVal) (g : DbGen) (w : World)
    (h : vid.truthy = false ∨ eid.truthy = false) :
    assign iso faults (some { volunteerId := vid, eventId := eid }) g w =
      (.err 400 "volunteerId and eventId required", w) := by
  unfold assign
  rcases h with h | h <;> simp [h]

/-- C10, witness: a present but falsy `eventId` (the number `0`) with a valid
`volunteerId` is answered 400. -/
theorem C10_witness :
    (JsVal.num (.num 0)).truthy = false ∧
    assign cIso [] (some { volunteerId := .str "v1", eventId := .num (.num 0) })
        ⟨"a1", none, "n1", none⟩ cW =
      (.err 400 "volunteerId and eventId required", cW) :=
  ⟨by decide,
   C10_assign_falsy_400 cIso [] (.str "v1") (.num (.num 0))
     ⟨"a1", none, "n1", none⟩ cW (Or.inr (by decide))⟩

/-! ## C3: assign error responses -/

/-- C3: a missing (`undefined`) body field — or a missing body — is answered
400 regardless of the other field; with both ids present as nonempty strings
and both lookups succeeding as database calls, a volunteer or event absent
from the store is answered 404. -/
theorem C3_assign_400_404 (iso : Int → String) (faults : List Bool)
    (g : DbGen) (w : World) (vid eid : JsVal) (vs es : String) :
    ((vid = .undefined ∨ eid = .undefined) →
       assign iso faults (some { volunteerId := vid, eventId := eid }) g w =
         (.err 400 "volunteerId and eventId required", w)) ∧
    (assign iso faults none g w =
       (.err 400 "volunteerId and eventId required", w)) ∧
    (vs ≠ "" → es ≠ "" →
       faultAt faults 0 = false → faultAt faults 1 = false →
       (findProfile vs w.store = none ∨ findEvent es w.store = none) →
       assign iso faults (some { volunteerId := .str vs, eventId := .str es })
           g w =
         (.err 404 "not found", w)) := by
  refine ⟨?_, ?_, ?_⟩
  · rintro (rfl | rfl) <;> simp [assign, JsVal.truthy]
  · simp [assign, JsVal.truthy]
  · intro hvs hes hf0 hf1 hnone
    have hvs' : vs.isEmpty = false := by
      rw [← Bool.not_eq_true, String.isEmpty_iff]; exact hvs
    have hes' : es.isEmpty = false := by
      rw [← Bool.not_eq_true, String.isEmpty_iff]; exact hes
    unfold assign
    rcases hnone with h | h
    · simp [JsVal.truthy, hvs', hes', hf0, hf1, h]
    · cases hfp : findProfile vs w.store <;>
        simp [JsVal.truthy, hvs', hes', hf0, hf1, h, hfp]

/-- C3, witness: a missing `eventId` next to a stored `volunteerId` gives
400, and a nonempty unknown `eventId` next to a stored `volunteerId` gives
404. -/
theorem C3_witness :
    (assign cIso [] (some { volunteerId := .str "v1", eventId := .undefined })
        ⟨"a1", none, "n1", none⟩ cW =
      (.err 400 "volunteerId and eventId required", cW)) ∧
    (("v1" : String) ≠ "" ∧ ("zz" : String) ≠ "" ∧ faultAt [] 0 = false ∧
       faultAt [] 1 = false ∧ findEvent "zz" cW.store = none) ∧
    (assign cIso [] (some { volunteerId := .str "v1", eventId := .str "zz" })
        ⟨"a1", none, "n1", none⟩ cW = (.err 404 "not found", cW)) :=
  ⟨(C3_assign_400_404 cIso [] ⟨"a1", none, "n1", none⟩ cW (.str "v1")
      .undefined "" "").1 (Or.inr rfl),
   ⟨by decide, by decide, rfl, rfl, by decide⟩,
   (C3_assign_400_404 cIso [] ⟨"a1", none, "n1", none⟩ cW .undefined
      .undefined "v1" "zz").2.2 (by decide) (by decide) rfl rfl
     (Or.inr (by decide))⟩

/-! ## C2: successful assign -/

/-- C2: a successful `assign` — both ids nonempty strings, both entities
found, no database failure — appends exactly one `Assignment` row, exactly
one `Notice` row, publishes exactly one bus message on the channel
`notice:volunteerId`, and answers `{ok: true, assignment}` whose
`createdAtMs` is the number `Number(createdAtMs ?? 0n)`. -/
theorem C2_assign_success (iso : Int → String) (faults : List Bool)
    (g : DbGen) (w : World) (vs es : String) (v : UserProfile)
    (e : EventDetails)
    (hf : ∀ i, faultAt faults i = false) (hvs : vs ≠ "") (hes : es ≠ "")
    (hv : findProfile vs w.store = some v) (he : findEvent es w.store = some e) :
    assign iso faults (some { volunteerId := .str vs, eventId := .str es }) g w =
      (.ok { ok := true,
             assignment := { id := g.assignmentId, volunteerId := vs,
                             eventId := es,
                             createdAtMs := g.assignmentCreatedAtMs.getD 0 } },
       { store := { w.store with
           assignments := w.store.assignments ++
             [{ id := g.assignmentId, volunteerId := vs, eventId := es,
                createdAtMs := g.assignmentCreatedAtMs }],
           notices := w.store.notices ++
             [{ id := g.noticeId, volunteerId := vs,
                title := "Assigned: " ++ e.eventName,
                body := e.location ++ " • " ++ iso e.eventDate,
                type := "success", createdAtMs := g.noticeCreatedAtMs }] },
         bus := w.bus ++
           [{ channel := "notice:" ++ vs,
              payload := { id := g.noticeId, volunteerId := vs,
                           title := "Assigned: " ++ e.eventName,
                           body := e.location ++ " • " ++ iso e.eventDate,
                           type := "success",
                           createdAtMs := g.noticeCreatedAtMs.getD 0 } }] }) := by
  have hvs' : vs.isEmpty = false := by
    rw [← Bool.not_eq_true, String.isEmpty_iff]; exact hvs
  have hes' : es.isEmpty = false := by
    rw [← Bool.not_eq_true, String.isEmpty_iff]; exact hes
  unfold assign
  simp [JsVal.truthy, hvs', hes', hf 0, hf 1, hf 2, hf 3, hv, he]

/-- C2, witness: assigning the stored volunteer `v1` to the stored event `e2`
of `cW`. -/
theorem C2_witness :
    ((∀ i, faultAt [] i = false) ∧ ("v1" : String) ≠ "" ∧
     ("e2" : String) ≠ "" ∧ findProfile "v1" cW.store = some cVol ∧
     findEvent "e2" cW.store = some (mkEvt "e2" 2)) ∧
    assign cIso [] (some { volunteerId := .str "v1", eventId := .str "e2" })
        ⟨"a1", some 100, "n1", some 200⟩ cW =
      (.ok { ok := true,
             assignment := { id := "a1", volunteerId := "v1", eventId := "e2",
                             createdAtMs := 100 } },
       { store := { cW.store with
           assignments := cW.store.assignments ++
             [{ id := "a1", volunteerId := "v1", eventId := "e2",
                createdAtMs := some 100 }],
           notices := cW.store.notices ++
             [{ id := "n1", volunteerId := "v1",
                title := "Assigned: " ++ (mkEvt "e2" 2).eventName,
                body := (mkEvt "e2" 2).location ++ " • " ++
                  cIso (mkEvt "e2" 2).eventDate,
                type := "success", createdAtMs := some 200 }] },
         bus := cW.bus ++
           [{ channel := "notice:" ++ "v1",
              payload := { id := "n1", volunteerId := "v1",
                           title := "Assigned: " ++ (mkEvt "e2" 2).eventName,
                           body := (mkEvt "e2" 2).location ++ " • " ++
                             cIso (mkEvt "e2" 2).eventDate,
                           type := "success", createdAtMs := 200 } }] }) :=
  ⟨⟨fun _ => rfl, by decide, by decide, by decide, by decide⟩,
   C2_assign_success cIso [] ⟨"a1", some 100, "n1", some 200⟩ cW "v1" "e2"
     cVol (mkEvt "e2" 2) (fun _ => rfl) (by decide) (by decide) (by decide)
     (by decide)⟩

/-! ## C5: rank responses are total and classified -/

/-- C5: the ranking endpoint answers 404 with the error body
`volunteer not found` exactly when the volunteer lookup runs and finds
nothing; a failing database call yields the generic 500 `rank_failed`; and
every outcome is one of 200, 404 or 500 — the handler is total, no input or
store failure escapes the catch. -/
theorem C5_rank_responses (iso : Int → String)
    (score : VolunteerDTO → EventDTO → Rat) (faults : List Bool) (id : String)
    (topNq : Option String) (w : World) :
    ((rankForVolunteer iso score faults id topNq w).1 =
        .err 404 "volunteer not found" ↔
      faultAt faults 0 = false ∧ findProfile id w.store = none) ∧
    ((faultAt faults 0 = true ∨
        ((∃ v, findProfile id w.store = some v) ∧ faultAt faults 1 = true)) →
      (rankForVolunteer iso score faults id topNq w).1 =
        .err 500 "rank_failed") ∧
    ((∃ l, (rankForVolunteer iso score faults id topNq w).1 = .ok l) ∨
      (rankForVolunteer iso score faults id topNq w).1 =
        .err 404 "volunteer not found" ∨
      (rankForVolunteer iso score faults id topNq w).1 =
        .err 500 "rank_failed") := by
  unfold rankForVolunteer
  cases hf0 : faultAt faults 0 <;>
    cases hfp : findProfile id w.store <;>
      cases hf1 : faultAt faults 1 <;> simp

/-- C5, witness: an unknown volunteer id against `cW` is answered 404 with
the error body `volunteer not found`. -/
theorem C5_witness :
    (faultAt [] 0 = false ∧ findProfile "vX" cW.store = none) ∧
    (rankForVolunteer cIso cScore [] "vX" none cW).1 =
      .err 404 "volunteer not found" :=
  ⟨⟨rfl, by decide⟩,
   (C5_rank_responses cIso cScore [] "vX" none cW).1.mpr ⟨rfl, by decide⟩⟩

/-! ## C6: the matching API never mutates volunteers or events -/

/-- Every branch of `assign` leaves every table except `assignments` and
`notices` unchanged, and only appends to those two and to the bus log. -/
theorem assign_frame (iso : Int → String) (faults : List Bool)
    (body : Option AssignBody) (g : DbGen) (w : World) :
    ∃ (A : List Assignment) (N : List Notice) (B : List BusMessage),
      (assign iso faults body g w).2 =
        { store := { w.store with
            assignments := w.store.assignments ++ A,
            notices := w.store.notices ++ N },
          bus := w.bus ++ B } := by
  rcases body with _ | ⟨vid, eid⟩
  · exact ⟨[], [], [], by simp [assign, JsVal.truthy]⟩
  · cases hvt : vid.truthy with
    | false => exact ⟨[], [], [], by simp [assign, hvt]⟩
    | true =>
      cases het : eid.truthy with
      | false => exact ⟨[], [], [], by simp [assign, hvt, het]⟩
      | true =>
        cases hf01 : (faultAt faults 0 || faultAt faults 1) with
        | true => exact ⟨[], [], [], by simp [assign, hvt, het, hf01]⟩
        | false =>
          cases vid with
          | str vs =>
            cases eid with
            | str es =>
              cases hfp : findProfile vs w.store with
              | none => exact ⟨[], [], [], by simp [assign, hvt, het, hf01, hfp]⟩
              | some v =>
                cases hfe : findEvent es w.store with
                | none =>
                  exact ⟨[], [], [], by simp [assign, hvt, het, hf01, hfp, hfe]⟩
                | some e =>
                  cases hf2 : faultAt faults 2 with
                  | true =>
                    exact ⟨[], [], [],
                      by simp [assign, hvt, het, hf01, hfp, hfe, hf2]⟩
                  | false =>
                    cases hf3 : faultAt faults 3 with
                    | true =>
                      exact ⟨[⟨g.assignmentId, vs, es, g.assignmentCreatedAtMs⟩],
                        [], [],
                        by simp [assign, hvt, het, hf01, hfp, hfe, hf2, hf3]⟩
                    | false =>
                      exact ⟨[⟨g.assignmentId, vs, es, g.assignmentCreatedAtMs⟩],
                        [⟨g.noticeId, vs, "Assigned: " ++ e.eventName,
                          e.location ++ " • " ++ iso e.eventDate, "success",
                          g.noticeCreatedAtMs⟩],
                        [⟨"notice:" ++ vs,
                          ⟨g.noticeId, vs, "Assigned: " ++ e.eventName,
                           e.location ++ " • " ++ iso e.eventDate, "success",
                           g.noticeCreatedAtMs.getD 0⟩⟩],
                        by simp [assign, hvt, het, hf01, hfp, hfe, hf2, hf3]⟩
            | num m => exact ⟨[], [], [], by simp [assign, hvt, het, hf01]⟩
            | bool b => exact ⟨[], [], [], by simp [assign, hvt, het, hf01]⟩
            | null => exact ⟨[], [], [], by simp [assign, hvt, het, hf01]⟩
            | undefined => exact ⟨[], [], [], by simp [assign, hvt, het, hf01]⟩
          | num n =>
            cases eid <;> exact ⟨[], [], [], by simp [assign, hvt, het, hf01]⟩
          | bool b =>
            cases eid <;> exact ⟨[], [], [], by simp [assign, hvt, het, hf01]⟩
          | null =>
            cases eid <;> exact ⟨[], [], [], by simp [assign, hvt, het, hf01]⟩
          | undefined =>
            cases eid <;> exact ⟨[], [], [], by simp [assign, hvt, het, hf01]⟩

/-- C6: no matching endpoint mutates a stored volunteer or event: the four
read endpoints return the world unchanged, and `assign` keeps `creds`,
`profiles` and `events` intact, only ever appending `Assignment` rows,
`Notice` rows and bus messages. -/
theorem C6_store_frame (iso : Int → String)
    (score : VolunteerDTO → EventDTO → Rat) (faults : List Bool) (id : String)
    (topNq : Option String) (body : Option AssignBody) (g : DbGen)
    (w : World) :
    (listVolunteers faults w).2 = w ∧
    (listEvents iso faults w).2 = w ∧
    (rankForVolunteer iso score faults id topNq w).2 = w ∧
    (health w).2 = w ∧
    (∃ (A : List Assignment) (N : List Notice) (B : List BusMessage),
      (assign iso faults body g w).2 =
        { store := { w.store with
            assignments := w.store.assignments ++ A,
            notices := w.store.notices ++ N },
          bus := w.bus ++ B }) := by
  refine ⟨?_, ?_, ?_, rfl, assign_frame iso faults body g w⟩
  · unfold listVolunteers; split <;> rfl
  · unfold listEvents; split <;> rfl
  · unfold rankForVolunteer
    split
    · rfl
    · split
      · rfl
      · split <;> rfl

/-! ## C1: the ranking pipeline -/

/-- The comparator `(a, b) => b.score - a.score` is transitive. -/
theorem desc_trans (a b c : Ranked) (h1 : decide (b.score ≤ a.score) = true)
    (h2 : decide (c.score ≤ b.score) = true) :
    decide (c.score ≤ a.score) = true := by
  simp only [decide_eq_true_eq] at h1 h2 ⊢
  exact le_trans h2 h1

/-- The comparator `(a, b) => b.score - a.score` is total. -/
theorem desc_total (a b : Ranked) :
    (decide (b.score ≤ a.score) || decide (a.score ≤ b.score)) = true := by
  simpa using le_total b.score a.score

/-- Sorting with the descending comparator yields a list sorted descending
by score. -/
theorem sorted_mergeSort_desc (P : List Ranked) :
    List.Sorted (fun a b : Ranked => b.score ≤ a.score)
      (P.mergeSort (fun a b => decide (b.score ≤ a.score))) := by
  have h := @List.sorted_mergeSort Ranked
    (fun a b : Ranked => decide (b.score ≤ a.score)) desc_trans desc_total P
  exact h.imp (fun hab => of_decide_eq_true hab)

/-- Taking `min n length` elements is taking `n` elements. -/
theorem take_min_length {α : Type} (l : List α) (a : Nat) :
    l.take (min a l.length) = l.take a := by
  rcases le_total a l.length with h | h
  · rw [min_eq_left h]
  · rw [min_eq_right h, List.take_length, List.take_of_length_le h]

/-- On success, `rankForVolunteer` answers with the sliced sort of
`posPairs`. -/
theorem rank_eq_slice (iso : Int → String)
    (score : VolunteerDTO → EventDTO → Rat) (faults : List Bool) (id : String)
    (topNq : Option String) (v : UserProfile) (w : World)
    (h0 : faultAt faults 0 = false) (h1 : faultAt faults 1 = false)
    (hv : findProfile id w.store = some v) :
    rankForVolunteer iso score faults id topNq w =
      (.ok (jsSlice (parseTopN topNq)
        ((posPairs iso score v w.store.events).mergeSort
          (fun a b => decide (b.score ≤ a.score)))), w) := by
  simp [rankForVolunteer, h0, h1, hv, posPairs]

/-- C1: on success with a numeric nonnegative `topN`, the answered list is
the length-`topN` prefix of a descending-sorted permutation of the
positive-scoring pairs — so truncation keeps the top scores (tie order being
the stable sort's, implementation-defined).  Consequently it contains only
events scoring strictly positively against the volunteer, is sorted
descending by score, has length `min topN (number of positive scores)`, is a
sub-permutation of the positive pairs, and is a permutation of all of them
whenever `topN` does not truncate. -/
theorem C1_rank_filter_sort_truncate (iso : Int → String)
    (score : VolunteerDTO → EventDTO → Rat) (faults : List Bool) (id : String)
    (topNq : Option String) (n : Int) (v : UserProfile) (w : World)
    (h0 : faultAt faults 0 = false) (h1 : faultAt faults 1 = false)
    (hv : findProfile id w.store = some v)
    (hn : parseTopN topNq = .num n) (hn0 : 0 ≤ n) :
    ∃ r, rankForVolunteer iso score faults id topNq w = (.ok r, w) ∧
      (∃ L, L.Perm (posPairs iso score v w.store.events) ∧
        List.Sorted (fun a b : Ranked => b.score ≤ a.score) L ∧
        r = L.take n.toNat) ∧
      (∀ x ∈ r, 0 < x.score) ∧
      List.Sorted (fun a b : Ranked => b.score ≤ a.score) r ∧
      r.length = min n.toNat (posPairs iso score v w.store.events).length ∧
      r.Subperm (posPairs iso score v w.store.events) ∧
      ((posPairs iso score v w.store.events).length ≤ n.toNat →
        r.Perm (posPairs iso score v w.store.events)) := by
  have hrank := rank_eq_slice iso score faults id topNq v w h0 h1 hv
  rw [hn] at hrank
  set P := posPairs iso score v w.store.events with hP
  set L := P.mergeSort (fun a b => decide (b.score ≤ a.score)) with hL
  have hLlen : L.length = P.length := List.length_mergeSort P
  have hslice : jsSlice (.num n) L = L.take n.toNat := by
    simp only [jsSlice, jsSliceEnd]
    rw [if_neg (by omega)]
    exact take_min_length L n.toNat
  rw [hslice] at hrank
  refine ⟨_, hrank,
    ⟨L, List.mergeSort_perm P _, sorted_mergeSort_desc P, rfl⟩,
    ?_, ?_, ?_, ?_, ?_⟩
  · intro x hx
    have hxL : x ∈ L := List.mem_of_mem_take hx
    have hxP : x ∈ P := (List.mergeSort_perm P _).mem_iff.mp hxL
    have := (List.mem_filter.mp hxP).2
    exact of_decide_eq_true this
  · exact (sorted_mergeSort_desc P).sublist (List.take_sublist _ L)
  · rw [List.length_take, hLlen]
  · exact ((List.take_sublist _ L).subperm).trans
      (List.mergeSort_perm P _).subperm
  · intro hle
    rw [List.take_of_length_le (by omega)]
    exact List.mergeSort_perm P _

unseal List.merge List.mergeSort in
/-- C1, witness: against `cW` the scores are 5, 9 and 1, with `topN = "2"`
the theorem applies with `n = 2`, and the concrete answer is the pair list
with scores `[9, 5]` — the claim's example. -/
theorem C1_witness :
    (faultAt [] 0 = false ∧ faultAt [] 1 = false ∧
     findProfile "v1" cW.store = some cVol ∧
     parseTopN (some "2") = .num 2 ∧ (0 : Int) ≤ 2) ∧
    (∃ r, rankForVolunteer cIso cScore [] "v1" (some "2") cW = (.ok r, cW) ∧
      (∃ L, L.Perm (posPairs cIso cScore cVol cW.store.events) ∧
        List.Sorted (fun a b : Ranked => b.score ≤ a.score) L ∧
        r = L.take (Int.toNat 2)) ∧
      (∀ x ∈ r, 0 < x.score) ∧
      List.Sorted (fun a b : Ranked => b.score ≤ a.score) r ∧
      r.length = min (Int.toNat 2) (posPairs cIso cScore cVol cW.store.events).length ∧
      r.Subperm (posPairs cIso cScore cVol cW.store.events) ∧
      ((posPairs cIso cScore cVol cW.store.events).length ≤ Int.toNat 2 →
        r.Perm (posPairs cIso cScore cVol cW.store.events))) ∧
    okList (rankForVolunteer cIso cScore [] "v1" (some "2") cW).1 =
      [⟨toEventDTO cIso (mkEvt "e2" 2), 9⟩, ⟨toEventDTO cIso (mkEvt "e1" 1), 5⟩] :=
  ⟨⟨rfl, rfl, by decide, by decide, by decide⟩,
   C1_rank_filter_sort_truncate cIso cScore [] "v1" (some "2") 2 cVol cW rfl
     rfl (by decide) (by decide) (by decide),
   by decide⟩

/-! ## C4: the default topN -/

/-- C4, counterexample: with `topN` omitted and 10000 stored events all
scoring 1, the answer does not contain all positive-scoring pairs — the
default is the finite `9999`, not unlimited. -/
theorem C4_counterexample :
    ¬ (∀ x ∈ posPairs cIso oneScore cVol bigWorld.store.events,
        x ∈ okList (rankForVolunteer cIso oneScore [] "v1" none bigWorld).1) := by
  intro hall
  have hv : findProfile "v1" bigWorld.store = some cVol := rfl
  have hrank := rank_eq_slice cIso oneScore [] "v1" none cVol bigWorld rfl rfl hv
  set P := posPairs cIso oneScore cVol bigWorld.store.events with hP
  set L := P.mergeSort (fun a b => decide (b.score ≤ a.score)) with hL
  have hPfull : P = bigWorld.store.events.map (fun e =>
      let eDTO := toEventDTO cIso e
      ({ event := eDTO, score := oneScore (toVolunteerDTO cVol) eDTO } : Ranked)) := by
    rw [hP]
    unfold posPairs
    apply List.filter_eq_self.mpr
    intro x hx
    rcases List.mem_map.mp hx with ⟨e, _, rfl⟩
    simp [oneScore]
  have hbe : bigWorld.store.events = (List.range 10000).map bigEvent := by
    simp only [bigWorld]
  have hPlen : P.length = 10000 := by
    rw [hPfull, hbe, List.length_map, List.length_map, List.length_range]
  have hLlen : L.length = 10000 := by rw [List.length_mergeSort, hPlen]
  have hok : ∀ l : List Ranked, okList (ApiResult.ok l) = l := fun _ => rfl
  have hpt : parseTopN none = JSNum.num 9999 := rfl
  have hjs : ∀ l : List Ranked,
      jsSlice (JSNum.num 9999) l = l.take (min (Int.toNat 9999) l.length) := by
    intro l
    simp only [jsSlice, jsSliceEnd]
    rw [if_neg (by omega)]
  have hreslen : (okList (rankForVolunteer cIso oneScore [] "v1" none bigWorld).1).length = 9999 := by
    rw [hrank]
    show (okList (ApiResult.ok (jsSlice (parseTopN none) L))).length = 9999
    rw [hok, hpt, hjs, List.length_take, hLlen]
    decide
  have hnodup : P.Nodup := by
    rw [hPfull, hbe, List.map_map]
    apply List.Nodup.map _ (List.nodup_range 10000)
    intro i j hij
    have := congrArg (fun x : Ranked => x.event.location.data.length) hij
    simpa [bigEvent, toEventDTO, Function.comp] using this
  have hsub : P.Subperm (okList (rankForVolunteer cIso oneScore [] "v1" none bigWorld).1) :=
    hnodup.subperm (fun x hx => hall x hx)
  have := hsub.length_le
  omega

/-- C4, amended: the default `topN` is the finite `9999`: with `topN`
omitted, the answer is a permutation of all positive-scoring pairs (sorted
descending, no truncation) whenever at most 9999 events score positively. -/
theorem C4_default_topN_9999 (iso : Int → String)
    (score : VolunteerDTO → EventDTO → Rat) (faults : List Bool) (id : String)
    (v : UserProfile) (w : World)
    (h0 : faultAt faults 0 = false) (h1 : faultAt faults 1 = false)
    (hv : findProfile id w.store = some v)
    (hlen : (posPairs iso score v w.store.events).length ≤ 9999) :
    ∃ r, rankForVolunteer iso score faults id none w = (.ok r, w) ∧
      r.Perm (posPairs iso score v w.store.events) ∧
      List.Sorted (fun a b : Ranked => b.score ≤ a.score) r ∧
      (∀ x ∈ r, 0 < x.score) := by
  have hrank := rank_eq_slice iso score faults id none v w h0 h1 hv
  set P := posPairs iso score v w.store.events with hP
  set L := P.mergeSort (fun a b => decide (b.score ≤ a.score)) with hL
  have hLlen : L.length = P.length := List.length_mergeSort P
  have hslice : jsSlice (parseTopN none) L = L := by
    simp only [parseTopN, jsSlice, jsSliceEnd]
    rw [if_neg (by omega)]
    exact List.take_of_length_le (le_min (by omega) le_rfl)
  rw [hslice] at hrank
  refine ⟨L, hrank, List.mergeSort_perm P _, sorted_mergeSort_desc P, ?_⟩
  intro x hx
  have hxP : x ∈ P := (List.mergeSort_perm P _).mem_iff.mp hx
  have := (List.mem_filter.mp hxP).2
  exact of_decide_eq_true this

/-- C4, amended witness: against `cW` all three events score positively and
the full sorted list is answered. -/
theorem C4_witness :
    (faultAt [] 0 = false ∧ faultAt [] 1 = false ∧
     findProfile "v1" cW.store = some cVol ∧
     (posPairs cIso cScore cVol cW.store.events).length ≤ 9999) ∧
    (∃ r, rankForVolunteer cIso cScore [] "v1" none cW = (.ok r, cW) ∧
      r.Perm (posPairs cIso cScore cVol cW.store.events) ∧
      List.Sorted (fun a b : Ranked => b.score ≤ a.score) r ∧
      (∀ x ∈ r, 0 < x.score)) :=
  ⟨⟨rfl, rfl, by decide, by decide⟩,
   C4_default_topN_9999 cIso cScore [] "v1" cVol cW rfl rfl (by decide)
     (by decide)⟩

/-! ## C7: seeding — generic facts about the two upsert shapes -/

/-- A key is present iff some row carries it. -/
theorem keyExists_iff {ρ : Type} (key : ρ → String) (rows : List ρ)
    (k : String) :
    keyExists key rows k = true ↔ ∃ r ∈ rows, key r = k := by
  simp [keyExists, List.any_eq_true]

/-- An upsert with empty `update` leaves the table unchanged when the key is
present. -/
theorem upsertKeep_of_exists {ρ : Type} (key : ρ → String) (k : String)
    (c : ρ) (rows : List ρ) (h : keyExists key rows k = true) :
    upsertKeep key k c rows = rows := by
  unfold upsertKeep
  rw [if_pos h]

theorem keyExists_upsertKeep_mono {ρ : Type} (key : ρ → String)
    (k k' : String) (c : ρ) (rows : List ρ)
    (h : keyExists key rows k' = true) :
    keyExists key (upsertKeep key k c rows) k' = true := by
  unfold upsertKeep
  split
  · exact h
  · rcases (keyExists_iff key rows k').mp h with ⟨r, hr, hk⟩
    exact (keyExists_iff _ _ _).mpr ⟨r, List.mem_append_left _ hr, hk⟩

theorem keyExists_upsertKeep_self {ρ : Type} (key : ρ → String) (k : String)
    (c : ρ) (rows : List ρ) (hc : key c = k) :
    keyExists key (upsertKeep key k c rows) k = true := by
  unfold upsertKeep
  split
  case isTrue h => exact h
  case isFalse h =>
    exact (keyExists_iff _ _ _).mpr ⟨c, List.mem_append_right _ (by simp), hc⟩

/-- A key-preserving `update` keeps every row's key through the rewrite map
of `upsertWith`. -/
theorem key_ite {ρ : Type} (key : ρ → String) (k : String) (u : ρ → ρ)
    (hu : ∀ r, key (u r) = key r) (r : ρ) :
    key (if key r == k then u r else r) = key r := by
  split
  · exact hu r
  · rfl

theorem keyExists_upsertWith_self {ρ : Type} (key : ρ → String) (k : String)
    (u : ρ → ρ) (c : ρ) (rows : List ρ) (hu : ∀ r, key (u r) = key r)
    (hc : key c = k) :
    keyExists key (upsertWith key k u c rows) k = true := by
  unfold upsertWith
  split
  case isTrue h =>
    rcases (keyExists_iff key rows k).mp h with ⟨r, hr, hk⟩
    exact (keyExists_iff _ _ _).mpr
      ⟨_, List.mem_map_of_mem _ hr, by rw [key_ite key k u hu r]; exact hk⟩
  case isFalse h =>
    exact (keyExists_iff _ _ _).mpr ⟨c, List.mem_append_right _ (by simp), hc⟩

theorem keyExists_upsertWith_mono {ρ : Type} (key : ρ → String)
    (k k' : String) (u : ρ → ρ) (c : ρ) (rows : List ρ)
    (hu : ∀ r, key (u r) = key r) (h : keyExists key rows k' = true) :
    keyExists key (upsertWith key k u c rows) k' = true := by
  unfold upsertWith
  split
  · rcases (keyExists_iff key rows k').mp h with ⟨r, hr, hk⟩
    exact (keyExists_iff _ _ _).mpr
      ⟨_, List.mem_map_of_mem _ hr, by rw [key_ite key k u hu r]; exact hk⟩
  · rcases (keyExists_iff key rows k').mp h with ⟨r, hr, hk⟩
    exact (keyExists_iff _ _ _).mpr ⟨r, List.mem_append_left _ hr, hk⟩

/-- Rows under a key different from the upsert's key are exactly rows of the
original table. -/
theorem mem_upsertWith_ne {ρ : Type} (key : ρ → String) (k k' : String)
    (u : ρ → ρ) (c : ρ) (rows : List ρ) (hu : ∀ r, key (u r) = key r)
    (hc : key c = k) (hne : k' ≠ k) :
    ∀ r' ∈ upsertWith key k u c rows, key r' = k' → r' ∈ rows := by
  unfold upsertWith
  split
  case isTrue h =>
    intro r' hr' hk'
    rcases List.mem_map.mp hr' with ⟨r, hr, rfl⟩
    by_cases hrk : (key r == k) = true
    · rw [if_pos hrk, hu r] at hk'
      exact absurd (hk'.symm.trans (beq_iff_eq.mp hrk)) hne
    · rw [if_neg hrk]
      exact hr
  case isFalse h =>
    intro r' hr' hk'
    rcases List.mem_append.mp hr' with h1 | h1
    · exact h1
    · exfalso
      have hrc : r' = c := by simpa using h1
      rw [hrc, hc] at hk'
      exact hne hk'.symm

/-- After `upsertWith`, every row under the upsert's key is a fixed point of
the `update` rewrite (provided it fixes the created row and is idempotent). -/
theorem fixed_upsertWith {ρ : Type} (key : ρ → String) (k : String)
    (u : ρ → ρ) (c : ρ) (rows : List ρ) (hu : ∀ r, key (u r) = key r)
    (hc : key c = k) (huc : u c = c) (hii : ∀ r, u (u r) = u r) :
    ∀ r' ∈ upsertWith key k u c rows, key r' = k → u r' = r' := by
  unfold upsertWith
  split
  case isTrue h =>
    intro r' hr' hk'
    rcases List.mem_map.mp hr' with ⟨r, hr, rfl⟩
    by_cases hrk : (key r == k) = true
    · rw [if_pos hrk]
      exact hii r
    · rw [if_neg hrk] at hk' ⊢
      exact absurd (beq_iff_eq.mpr hk') hrk
  case isFalse h =>
    intro r' hr' hk'
    rcases List.mem_append.mp hr' with h1 | h1
    · exact absurd ((keyExists_iff key rows k).mpr ⟨r', h1, hk'⟩) h
    · have hrc : r' = c := by simpa using h1
      rw [hrc]
      exact huc

/-- `upsertWith` is the identity once the key exists and every row under it
is a fixed point of the rewrite. -/
theorem upsertWith_eq_self {ρ : Type} (key : ρ → String) (k : String)
    (u : ρ → ρ) (c : ρ) (rows : List ρ) (h : keyExists key rows k = true)
    (hfix : ∀ r ∈ rows, key r = k → u r = r) :
    upsertWith key k u c rows = rows := by
  unfold upsertWith
  rw [if_pos h]
  have hpt : ∀ r ∈ rows, (if key r == k then u r else r) = id r := by
    intro r hr
    split
    case isTrue hrk => exact hfix r hr (beq_iff_eq.mp hrk)
    case isFalse => rfl
  rw [List.map_congr_left hpt, List.map_id]

/-- `upsertWith` makes the row count under its key exactly one (given the
table had at most one). -/
theorem countP_upsertWith_self {ρ : Type} (key : ρ → String) (k : String)
    (u : ρ → ρ) (c : ρ) (rows : List ρ) (hu : ∀ r, key (u r) = key r)
    (hc : key c = k)
    (hle : rows.countP (fun r => key r == k) ≤ 1) :
    (upsertWith key k u c rows).countP (fun r => key r == k) = 1 := by
  unfold upsertWith
  split
  case isTrue h =>
    have h1 : (rows.map (fun r => if key r == k then u r else r)).countP
        (fun r => key r == k) = rows.countP (fun r => key r == k) := by
      rw [List.countP_map]
      apply List.countP_congr
      intro r hr
      simp only [Function.comp]
      rw [key_ite key k u hu r]
    rw [h1]
    have hpos : 0 < rows.countP (fun r => key r == k) := by
      rcases (keyExists_iff key rows k).mp h with ⟨r, hr, hk⟩
      exact List.countP_pos_iff.mpr ⟨r, hr, beq_iff_eq.mpr hk⟩
    omega
  case isFalse h =>
    rw [List.countP_append]
    have h0 : rows.countP (fun r => key r == k) = 0 := by
      rw [List.countP_eq_zero]
      intro r hr hk
      exact h ((keyExists_iff key rows k).mpr ⟨r, hr, beq_iff_eq.mp hk⟩)
    rw [h0]
    simp [List.countP_cons, hc]

/-- `upsertWith` keeps the row count under every other key. -/
theorem countP_upsertWith_ne {ρ : Type} (key : ρ → String) (k k' : String)
    (u : ρ → ρ) (c : ρ) (rows : List ρ) (hu : ∀ r, key (u r) = key r)
    (hc : key c = k) (hne : k' ≠ k) :
    (upsertWith key k u c rows).countP (fun r => key r == k') =
      rows.countP (fun r => key r == k') := by
  unfold upsertWith
  split
  · rw [List.countP_map]
    apply List.countP_congr
    intro r hr
    simp only [Function.comp]
    rw [key_ite key k u hu r]
  · rw [List.countP_append]
    have hone : List.countP (fun r => key r == k') [c] = 0 := by
      simp [List.countP_cons, hc, Ne.symm hne]
    rw [hone, Nat.add_zero]

/-- `upsertWith` keeps keys without duplicates. -/
theorem nodupKeys_upsertWith {ρ : Type} (key : ρ → String) (k : String)
    (u : ρ → ρ) (c : ρ) (rows : List ρ) (hu : ∀ r, key (u r) = key r)
    (hc : key c = k) (hn : (rows.map key).Nodup) :
    ((upsertWith key k u c rows).map key).Nodup := by
  unfold upsertWith
  split
  case isTrue h =>
    have hmm : (rows.map (fun r => if key r == k then u r else r)).map key =
        rows.map key := by
      rw [List.map_map]
      apply List.map_congr_left
      intro r hr
      exact key_ite key k u hu r
    rw [hmm]
    exact hn
  case isFalse h =>
    rw [List.map_append, List.nodup_append]
    refine ⟨hn, by simp, ?_⟩
    intro a ha hb
    have hb' : a = key c := by simpa using hb
    rcases List.mem_map.mp ha with ⟨r, hr, rfl⟩
    exact h ((keyExists_iff key rows k).mpr ⟨r, hr, hb'.trans hc⟩)

/-- Tables with duplicate-free keys have at most one row per key. -/
theorem countP_le_one_of_nodupKeys {ρ : Type} (key : ρ → String)
    (rows : List ρ) (hn : (rows.map key).Nodup) (k : String) :
    rows.countP (fun r => key r == k) ≤ 1 := by
  induction rows with
  | nil => simp
  | cons r tl ih =>
    rw [List.map_cons, List.nodup_cons] at hn
    rw [List.countP_cons]
    by_cases hk : (key r == k) = true
    · have h0 : tl.countP (fun r => key r == k) = 0 := by
        rw [List.countP_eq_zero]
        intro a ha hka
        apply hn.1
        have hak : key a = key r := (beq_iff_eq.mp hka).trans (beq_iff_eq.mp hk).symm
        exact hak ▸ List.mem_map_of_mem key ha
      simp [h0, hk]
    · rw [if_neg hk]
      simpa using ih hn.2

/-! ## C7: seeding — one volunteer, one event -/

theorem seedVolunteer_creds (now : Int) (v : DemoVol) (s : Store) :
    (seedVolunteer now v s).creds =
      upsertKeep (fun c : UserCredentials => c.userId) v.id ⟨v.id, "demo"⟩
        s.creds := rfl

theorem seedVolunteer_profiles (now : Int) (v : DemoVol) (s : Store) :
    (seedVolunteer now v s).profiles =
      upsertWith (fun p : UserProfile => p.userId) v.id (profileUpdate v)
        (profileCreate now v) s.profiles := rfl

theorem seedVolunteer_events (now : Int) (v : DemoVol) (s : Store) :
    (seedVolunteer now v s).events = s.events := rfl

theorem seedEvent_events (parseDate : String → Int) (e : DemoEvent) (s : Store) :
    (seedEvent parseDate e s).events =
      upsertWith (fun r : EventDetails => r.id) e.id (eventUpdate parseDate e)
        (eventCreate parseDate e) s.events := rfl

theorem seedEvent_creds (parseDate : String → Int) (e : DemoEvent) (s : Store) :
    (seedEvent parseDate e s).creds = s.creds := rfl

theorem seedEvent_profiles (parseDate : String → Int) (e : DemoEvent)
    (s : Store) :
    (seedEvent parseDate e s).profiles = s.profiles := rfl

/-- The profile `update` clause never touches the key. -/
theorem profileUpdate_key (v : DemoVol) (r : UserProfile) :
    (profileUpdate v r).userId = r.userId := rfl

theorem profileUpdate_idem (v : DemoVol) (r : UserProfile) :
    profileUpdate v (profileUpdate v r) = profileUpdate v r := rfl

theorem profileUpdate_create (now : Int) (v : DemoVol) :
    profileUpdate v (profileCreate now v) = profileCreate now v := rfl

theorem eventUpdate_key (parseDate : String → Int) (e : DemoEvent)
    (r : EventDetails) : (eventUpdate parseDate e r).id = r.id := rfl

theorem eventUpdate_idem (parseDate : String → Int) (e : DemoEvent)
    (r : EventDetails) :
    eventUpdate parseDate e (eventUpdate parseDate e r) =
      eventUpdate parseDate e r := rfl

theorem eventUpdate_create (parseDate : String → Int) (e : DemoEvent) :
    eventUpdate parseDate e (eventCreate parseDate e) =
      eventCreate parseDate e := rfl

/-- Seeding a volunteer leaves it seeded. -/
theorem volSeeded_seedVolunteer (now : Int) (v : DemoVol) (s : Store) :
    volSeeded v (seedVolunteer now v s) := by
  refine ⟨?_, ?_, ?_⟩
  · rw [seedVolunteer_creds]
    exact keyExists_upsertKeep_self _ _ _ _ rfl
  · rw [seedVolunteer_profiles]
    exact keyExists_upsertWith_self _ _ _ _ _ (fun r => rfl) rfl
  · rw [seedVolunteer_profiles]
    exact fixed_upsertWith _ _ _ _ _ (fun r => rfl) rfl
      (profileUpdate_create now v) (profileUpdate_idem v)

/-- Seeding a different volunteer preserves seededness. -/
theorem volSeeded_seedVolunteer_ne (now : Int) (v v' : DemoVol) (s : Store)
    (hne : v.id ≠ v'.id) (h : volSeeded v s) :
    volSeeded v (seedVolunteer now v' s) := by
  obtain ⟨h1, h2, h3⟩ := h
  refine ⟨?_, ?_, ?_⟩
  · rw [seedVolunteer_creds]
    exact keyExists_upsertKeep_mono _ _ _ _ _ h1
  · rw [seedVolunteer_profiles]
    exact keyExists_upsertWith_mono _ _ _ _ _ _ (fun r => rfl) h2
  · rw [seedVolunteer_profiles]
    intro r' hr' hk'
    exact h3 r'
      (mem_upsertWith_ne (fun p : UserProfile => p.userId) v'.id v.id
        (profileUpdate v') (profileCreate now v') s.profiles (fun r => rfl)
        rfl hne r' hr' hk') hk'

/-- Re-seeding an already seeded volunteer is a no-op. -/
theorem seedVolunteer_eq_self (now : Int) (v : DemoVol) (s : Store)
    (h : volSeeded v s) : seedVolunteer now v s = s := by
  obtain ⟨h1, h2, h3⟩ := h
  have hcr : upsertKeep (fun c : UserCredentials => c.userId) v.id
      ⟨v.id, "demo"⟩ s.creds = s.creds := upsertKeep_of_exists _ _ _ _ h1
  have hpr : upsertWith (fun p : UserProfile => p.userId) v.id
      (profileUpdate v) (profileCreate now v) s.profiles = s.profiles :=
    upsertWith_eq_self _ _ _ _ _ h2 h3
  rcases s with ⟨cr, pr, ev, asg, nt⟩
  simp only [seedVolunteer] at *
  rw [hcr, hpr]

theorem evtSeeded_seedEvent (parseDate : String → Int) (e : DemoEvent)
    (s : Store) : evtSeeded parseDate e (seedEvent parseDate e s) := by
  refine ⟨?_, ?_⟩
  · rw [seedEvent_events]
    exact keyExists_upsertWith_self _ _ _ _ _ (fun r => rfl) rfl
  · rw [seedEvent_events]
    exact fixed_upsertWith _ _ _ _ _ (fun r => rfl) rfl
      (eventUpdate_create parseDate e) (eventUpdate_idem parseDate e)

theorem evtSeeded_seedEvent_ne (parseDate : String → Int) (e e' : DemoEvent)
    (s : Store) (hne : e.id ≠ e'.id) (h : evtSeeded parseDate e s) :
    evtSeeded parseDate e (seedEvent parseDate e' s) := by
  obtain ⟨h1, h2⟩ := h
  refine ⟨?_, ?_⟩
  · rw [seedEvent_events]
    exact keyExists_upsertWith_mono _ _ _ _ _ _ (fun r => rfl) h1
  · rw [seedEvent_events]
    intro r' hr' hk'
    exact h2 r'
      (mem_upsertWith_ne (fun r : EventDetails => r.id) e'.id e.id
        (eventUpdate parseDate e') (eventCreate parseDate e') s.events
        (fun r => rfl) rfl hne r' hr' hk') hk'

theorem seedEvent_eq_self (parseDate : String → Int) (e : DemoEvent)
    (s : Store) (h : evtSeeded parseDate e s) : seedEvent parseDate e s = s := by
  obtain ⟨h1, h2⟩ := h
  have hev : upsertWith (fun r : EventDetails => r.id) e.id
      (eventUpdate parseDate e) (eventCreate parseDate e) s.events = s.events :=
    upsertWith_eq_self _ _ _ _ _ h1 h2
  rcases s with ⟨cr, pr, ev, asg, nt⟩
  simp only [seedEvent] at *
  rw [hev]

/-! ## C7: seeding — the two loops -/

theorem seedVols_cons (now : Int) (v : DemoVol) (tl : List DemoVol)
    (s : Store) :
    seedVols now (v :: tl) s = seedVols now tl (seedVolunteer now v s) := rfl

theorem seedEvents_cons (parseDate : String → Int) (e : DemoEvent)
    (tl : List DemoEvent) (s : Store) :
    seedEvents parseDate (e :: tl) s =
      seedEvents parseDate tl (seedEvent parseDate e s) := rfl

theorem seedVols_events (now : Int) (d : List DemoVol) :
    ∀ s : Store, (seedVols now d s).events = s.events := by
  induction d with
  | nil => intro s; rfl
  | cons v tl ih =>
    intro s
    rw [seedVols_cons, ih, seedVolunteer_events]

theorem seedEvents_creds (parseDate : String → Int) (evs : List DemoEvent) :
    ∀ s : Store, (seedEvents parseDate evs s).creds = s.creds := by
  induction evs with
  | nil => intro s; rfl
  | cons e tl ih =>
    intro s
    rw [seedEvents_cons, ih, seedEvent_creds]

theorem seedEvents_profiles (parseDate : String → Int) (evs : List DemoEvent) :
    ∀ s : Store, (seedEvents parseDate evs s).profiles = s.profiles := by
  induction evs with
  | nil => intro s; rfl
  | cons e tl ih =>
    intro s
    rw [seedEvents_cons, ih, seedEvent_profiles]

/-- Volunteer seededness only looks at `creds` and `profiles`. -/
theorem volSeeded_of_eq (v : DemoVol) (s s' : Store)
    (hc : s'.creds = s.creds) (hp : s'.profiles = s.profiles)
    (h : volSeeded v s) : volSeeded v s' := by
  obtain ⟨h1, h2, h3⟩ := h
  exact ⟨by rw [hc]; exact h1, by rw [hp]; exact h2, by rw [hp]; exact h3⟩

/-- Event seededness only looks at `events`. -/
theorem evtSeeded_of_eq (parseDate : String → Int) (e : DemoEvent)
    (s s' : Store) (he : s'.events = s.events) (h : evtSeeded parseDate e s) :
    evtSeeded parseDate e s' := by
  obtain ⟨h1, h2⟩ := h
  exact ⟨by rw [he]; exact h1, by rw [he]; exact h2⟩

theorem volSeeded_seedVols_preserved (now : Int) (v : DemoVol)
    (tl : List DemoVol) (hne : ∀ v' ∈ tl, v.id ≠ v'.id) :
    ∀ s : Store, volSeeded v s → volSeeded v (seedVols now tl s) := by
  induction tl with
  | nil => intro s h; exact h
  | cons v0 tl ih =>
    intro s h
    rw [seedVols_cons]
    exact ih (fun v' hv' => hne v' (List.mem_cons_of_mem _ hv')) _
      (volSeeded_seedVolunteer_ne now v v0 s (hne v0 (List.mem_cons_self _ _)) h)

theorem volSeeded_seedVols (now : Int) (d : List DemoVol)
    (hd : (d.map DemoVol.id).Nodup) :
    ∀ s : Store, ∀ v ∈ d, volSeeded v (seedVols now d s) := by
  induction d with
  | nil => intro s v hv; simp at hv
  | cons v0 tl ih =>
    intro s v hv
    rw [List.map_cons, List.nodup_cons] at hd
    rw [seedVols_cons]
    rcases List.mem_cons.mp hv with rfl | hv'
    · refine volSeeded_seedVols_preserved now v tl ?_ _
        (volSeeded_seedVolunteer now v s)
      intro v' hv' heq
      exact hd.1 (by rw [heq]; exact List.mem_map_of_mem DemoVol.id hv')
    · exact ih hd.2 _ v hv'

theorem seedVols_eq_self (now : Int) (d : List DemoVol) :
    ∀ s : Store, (∀ v ∈ d, volSeeded v s) → seedVols now d s = s := by
  induction d with
  | nil => intro s _; rfl
  | cons v0 tl ih =>
    intro s h
    rw [seedVols_cons, seedVolunteer_eq_self now v0 s (h v0 (List.mem_cons_self _ _))]
    exact ih s (fun v hv => h v (List.mem_cons_of_mem _ hv))

theorem evtSeeded_seedEvents_preserved (parseDate : String → Int)
    (e : DemoEvent) (tl : List DemoEvent) (hne : ∀ e' ∈ tl, e.id ≠ e'.id) :
    ∀ s : Store, evtSeeded parseDate e s →
      evtSeeded parseDate e (seedEvents parseDate tl s) := by
  induction tl with
  | nil => intro s h; exact h
  | cons e0 tl ih =>
    intro s h
    rw [seedEvents_cons]
    exact ih (fun e' he' => hne e' (List.mem_cons_of_mem _ he')) _
      (evtSeeded_seedEvent_ne parseDate e e0 s (hne e0 (List.mem_cons_self _ _)) h)

theorem evtSeeded_seedEvents (parseDate : String → Int) (evs : List DemoEvent)
    (he : (evs.map DemoEvent.id).Nodup) :
    ∀ s : Store, ∀ e ∈ evs, evtSeeded parseDate e (seedEvents parseDate evs s) := by
  induction evs with
  | nil => intro s e he'; simp at he'
  | cons e0 tl ih =>
    intro s e he'
    rw [List.map_cons, List.nodup_cons] at he
    rw [seedEvents_cons]
    rcases List.mem_cons.mp he' with rfl | he''
    · refine evtSeeded_seedEvents_preserved parseDate e tl ?_ _
        (evtSeeded_seedEvent parseDate e s)
      intro e' he'' heq
      exact he.1 (by rw [heq]; exact List.mem_map_of_mem DemoEvent.id he'')
    · exact ih he.2 _ e he''

theorem seedEvents_eq_self (parseDate : String → Int) (evs : List DemoEvent) :
    ∀ s : Store, (∀ e ∈ evs, evtSeeded parseDate e s) →
      seedEvents parseDate evs s = s := by
  induction evs with
  | nil => intro s _; rfl
  | cons e0 tl ih =>
    intro s h
    rw [seedEvents_cons,
      seedEvent_eq_self parseDate e0 s (h e0 (List.mem_cons_self _ _))]
    exact ih s (fun e he => h e (List.mem_cons_of_mem _ he))

/-! ## C7: seeding — row counts -/

theorem countProfiles_seedVolunteer_self (now : Int) (v : DemoVol) (s : Store)
    (hle : s.profiles.countP (fun p => p.userId == v.id) ≤ 1) :
    (seedVolunteer now v s).profiles.countP (fun p => p.userId == v.id) = 1 := by
  rw [seedVolunteer_profiles]
  exact countP_upsertWith_self (fun p : UserProfile => p.userId) v.id
    (profileUpdate v) (profileCreate now v) s.profiles (fun r => rfl) rfl hle

theorem countProfiles_seedVolunteer_ne (now : Int) (v v' : DemoVol) (s : Store)
    (hne : v.id ≠ v'.id) :
    (seedVolunteer now v' s).profiles.countP (fun p => p.userId == v.id) =
      s.profiles.countP (fun p => p.userId == v.id) := by
  rw [seedVolunteer_profiles]
  exact countP_upsertWith_ne (fun p : UserProfile => p.userId) v'.id v.id
    (profileUpdate v') (profileCreate now v') s.profiles (fun r => rfl) rfl hne

theorem nodupKeys_seedVolunteer (now : Int) (v : DemoVol) (s : Store)
    (hn : (s.profiles.map (fun p : UserProfile => p.userId)).Nodup) :
    ((seedVolunteer now v s).profiles.map
      (fun p : UserProfile => p.userId)).Nodup := by
  rw [seedVolunteer_profiles]
  exact nodupKeys_upsertWith (fun p : UserProfile => p.userId) v.id
    (profileUpdate v) (profileCreate now v) s.profiles (fun r => rfl) rfl hn

theorem countProfiles_seedVols_preserved (now : Int) (v : DemoVol)
    (tl : List DemoVol) (hne : ∀ v' ∈ tl, v.id ≠ v'.id) :
    ∀ s : Store, (seedVols now tl s).profiles.countP
        (fun p => p.userId == v.id) =
      s.profiles.countP (fun p => p.userId == v.id) := by
  induction tl with
  | nil => intro s; rfl
  | cons v0 tl ih =>
    intro s
    rw [seedVols_cons, ih (fun v' hv' => hne v' (List.mem_cons_of_mem _ hv')),
      countProfiles_seedVolunteer_ne now v v0 s (hne v0 (List.mem_cons_self _ _))]

theorem countProfiles_seedVols (now : Int) (d : List DemoVol)
    (hd : (d.map DemoVol.id).Nodup) :
    ∀ s : Store, (s.profiles.map (fun p : UserProfile => p.userId)).Nodup →
      ∀ v ∈ d,
        (seedVols now d s).profiles.countP (fun p => p.userId == v.id) = 1 := by
  induction d with
  | nil => intro s _ v hv; simp at hv
  | cons v0 tl ih =>
    intro s hn v hv
    rw [List.map_cons, List.nodup_cons] at hd
    rw [seedVols_cons]
    rcases List.mem_cons.mp hv with rfl | hv'
    · rw [countProfiles_seedVols_preserved now v tl ?_ _]
      · exact countProfiles_seedVolunteer_self now v s
          (countP_le_one_of_nodupKeys _ _ hn _)
      · intro v' hv' heq
        exact hd.1 (by rw [heq]; exact List.mem_map_of_mem DemoVol.id hv')
    · exact ih hd.2 _ (nodupKeys_seedVolunteer now v0 s hn) v hv'

/-! ## C7: the seed script is idempotent -/

/-- C7: seeding twice with the same demo data (ids pairwise distinct — they
are the upsert keys) leaves the store exactly as seeding once, and, starting
from a store whose profile `userId`s are duplicate-free (the column is
unique), every demo volunteer id owns exactly one profile row afterwards. -/
theorem C7_seedDemo_idempotent (parseDate : String → Int) (now : Int)
    (d : List DemoVol) (evs : List DemoEvent) (s : Store)
    (hd : (d.map DemoVol.id).Nodup) (he : (evs.map DemoEvent.id).Nodup)
    (hp : (s.profiles.map (fun p : UserProfile => p.userId)).Nodup) :
    seedDemo parseDate now d evs (seedDemo parseDate now d evs s) =
      seedDemo parseDate now d evs s ∧
    ∀ v ∈ d, ((seedDemo parseDate now d evs s).profiles.countP
        (fun p => p.userId == v.id)) = 1 := by
  have hT : seedDemo parseDate now d evs s =
      seedEvents parseDate evs (seedVols now d s) := rfl
  constructor
  · have hvolT : ∀ v ∈ d, volSeeded v (seedDemo parseDate now d evs s) := by
      intro v hv
      rw [hT]
      exact volSeeded_of_eq v _ _ (seedEvents_creds _ _ _)
        (seedEvents_profiles _ _ _) (volSeeded_seedVols now d hd s v hv)
    have hevT : ∀ e ∈ evs, evtSeeded parseDate e (seedDemo parseDate now d evs s) := by
      intro e he'
      rw [hT]
      exact evtSeeded_seedEvents parseDate evs he _ e he'
    calc seedDemo parseDate now d evs (seedDemo parseDate now d evs s)
        = seedEvents parseDate evs
            (seedVols now d (seedDemo parseDate now d evs s)) := rfl
      _ = seedEvents parseDate evs (seedDemo parseDate now d evs s) := by
            rw [seedVols_eq_self now d _ hvolT]
      _ = seedDemo parseDate now d evs s :=
            seedEvents_eq_self parseDate evs _ hevT
  · intro v hv
    rw [hT, seedEvents_profiles]
    exact countProfiles_seedVols now d hd s hp v hv

/-- C7, witness: seeding two demo volunteers and one demo event into the
empty store twice equals seeding once, with exactly one profile row per demo
id. -/
theorem C7_witness :
    ((([dVol1, dVol2].map DemoVol.id).Nodup ∧
      ([dEvt1].map DemoEvent.id).Nodup ∧
      (emptyStore.profiles.map (fun p : UserProfile => p.userId)).Nodup)) ∧
    (seedDemo (fun _ => 0) 0 [dVol1, dVol2] [dEvt1]
        (seedDemo (fun _ => 0) 0 [dVol1, dVol2] [dEvt1] emptyStore) =
      seedDemo (fun _ => 0) 0 [dVol1, dVol2] [dEvt1] emptyStore ∧
     ∀ v ∈ [dVol1, dVol2],
       ((seedDemo (fun _ => 0) 0 [dVol1, dVol2] [dEvt1] emptyStore).profiles.countP
         (fun p => p.userId == v.id)) = 1) :=
  ⟨⟨by decide, by decide, by decide⟩,
   C7_seedDemo_idempotent (fun _ => 0) 0 [dVol1, dVol2] [dEvt1] emptyStore
     (by decide) (by decide) (by decide)⟩

end VolunteerMatch
